import Mathlib

/-!
# NetPath request-dispatch engine — shallow embedding and verification

This file embeds the core of the NetPath Go HTTP framework (package `app`:
route registry, path matcher, middleware composition, request context with
its outcome-reporting operations, and the session-type registry) as
executable Lean definitions, and proves the specification claims about it.

Modelling conventions:
* Go strings are Lean `String`s; `strings.Split(s, "/")` is `splitSegs`
  (implemented over the character list so that it evaluates in the kernel).
* Go maps are association lists with overwrite-on-update (`mapUpd`) and
  first-hit lookup (`alookup`); a Go map's content is its lookup function.
* The iteration order of a `for … range` over a Go map is unspecified, so
  dispatch receives the per-method route list in an explicit order
  (`AppM.routes`): one value of that order models one concrete iteration.
* `panic` is modelled by the `RegResult.panicked` constructor; error returns
  by `Option FaultErr` / pairs returning the original error.
* The `http.ResponseWriter` is `RespWriter`: headers become effective only
  until the status line is written (Go ignores `WriteHeader` after the
  first call); JSON bodies are abstract `Json` values (JSON text encoding
  is out of scope per §1 of the specification).
* Handlers and middleware may log; `Ctx.trace` records those observable
  events so that execution order can be stated.
-/

/-- Abstract JSON values (objects keep the source-order field list). -/
inductive Json where
  | num (n : Nat)
  | str (s : String)
  | obj (fields : List (String × Json))
  | arr (elems : List Json)

/-- First-hit lookup in an association list (the content of a Go map). -/
def alookup {α β : Type} [DecidableEq α] : List (α × β) → α → Option β
  | [], _ => none
  | kv :: rest, k => if kv.1 = k then some kv.2 else alookup rest k

/-- Go-map assignment `m[k] = v`: overwrite the binding for `k` if present,
otherwise add it. -/
def mapUpd {α β : Type} [DecidableEq α] : List (α × β) → α → β → List (α × β)
  | [], k, v => [(k, v)]
  | kv :: rest, k, v => if kv.1 = k then (k, v) :: rest else kv :: mapUpd rest k v

theorem alookup_mapUpd_self {α β : Type} [DecidableEq α]
    (m : List (α × β)) (k : α) (v : β) : alookup (mapUpd m k v) k = some v := by
  induction m with
  | nil => simp [mapUpd, alookup]
  | cons kv rest ih =>
    by_cases h : kv.1 = k
    · simp [mapUpd, h, alookup]
    · simp [mapUpd, h, alookup, ih]

theorem alookup_mapUpd_ne {α β : Type} [DecidableEq α]
    (m : List (α × β)) (k k' : α) (v : β) (hne : k' ≠ k) :
    alookup (mapUpd m k v) k' = alookup m k' := by
  induction m with
  | nil => simp [mapUpd, alookup, Ne.symm hne]
  | cons kv rest ih =>
    by_cases h : kv.1 = k
    · simp [mapUpd, h, alookup, Ne.symm hne]
    · by_cases h' : kv.1 = k'
      · simp [mapUpd, h, alookup, h', hne]
      · simp [mapUpd, h, alookup, h', ih]

theorem mapUpd_self {α β : Type} [DecidableEq α]
    (m : List (α × β)) (k : α) (v : β) (h : alookup m k = some v) :
    mapUpd m k v = m := by
  induction m with
  | nil => simp [alookup] at h
  | cons kv rest ih =>
    by_cases hk : kv.1 = k
    · have h2 : kv.2 = v := by
        have := h
        simp [alookup, hk] at this
        exact this
      have hkv : (k, v) = kv := by rw [← hk, ← h2]
      simp [mapUpd, hk, hkv]
    · have h' : alookup rest k = some v := by
        have := h
        simpa [alookup, hk] using this
      simp [mapUpd, hk, ih h']

/-! ## Path splitting (Go `strings.Split(s, "/")`) -/

/-- Split a character list on `'/'`; the result always has one more element
than the number of separators (so `[] ↦ [[]]`), exactly like Go's
`strings.Split` with a one-character separator. -/
def splitCharList : List Char → List (List Char)
  | [] => [[]]
  | c :: rest =>
    if c = '/' then [] :: splitCharList rest
    else
      match splitCharList rest with
      | seg :: segs => (c :: seg) :: segs
      | [] => [[c]]

/-- `strings.Split(s, "/")` specialised to the slash separator. -/
def splitSegs (s : String) : List String := (splitCharList s.data).map (fun cs => ⟨cs⟩)

/-- `strings.HasPrefix(seg, ":")`: the segment is a parameter segment. -/
def isParamSeg (s : String) : Bool :=
  match s.data with
  | ':' :: _ => true
  | _ => false

/-- `seg[1:]`: the parameter name, the segment without its `:` sentinel. -/
def paramName (s : String) : String := ⟨s.data.tail⟩

/-! ## The path matcher (`matchRoute`) -/

/-- The loop body of `matchRoute`: walk the pattern segments and the path
segments in lockstep, accumulating parameter bindings in a Go map. -/
def matchSegs : List String → List String → List (String × String) →
    Option (List (String × String))
  | [], [], acc => some acc
  | p :: ps, q :: qs, acc =>
    if isParamSeg p then matchSegs ps qs (mapUpd acc (paramName p) q)
    else if p = q then matchSegs ps qs acc
    else none
  | _, _, _ => none

/-- Go `matchRoute(pattern, path)`: split both on `/`, require equal segment
counts, then compare segmentwise, binding parameter segments into the
`params` map. `none` models the `(nil, false)` return. -/
def matchRoute (pattern path : String) : Option (List (String × String)) :=
  let parts := splitSegs pattern
  let pathParts := splitSegs path
  if parts.length = pathParts.length then matchSegs parts pathParts [] else none

/-! ## Properties of the path matcher -/

theorem matchSegs_isSome_iff :
    ∀ (ps qs : List String) (acc : List (String × String)), ps.length = qs.length →
      ((matchSegs ps qs acc).isSome ↔
        ∀ pq ∈ ps.zip qs, isParamSeg pq.1 = true ∨ pq.1 = pq.2) := by
  intro ps
  induction ps with
  | nil =>
    intro qs acc hlen
    cases qs with
    | nil => simp [matchSegs]
    | cons q qs => simp at hlen
  | cons p ps ih =>
    intro qs acc hlen
    cases qs with
    | nil => simp at hlen
    | cons q qs =>
      simp at hlen
      by_cases hp : isParamSeg p = true
      · simp [matchSegs, hp, ih qs (mapUpd acc (paramName p) q) hlen]
      · by_cases hq : p = q
        · subst hq
          simp [matchSegs, hp, ih qs acc hlen]
        · simp [matchSegs, hp, hq]

theorem matchSegs_lookup_stable (k : String) :
    ∀ (ps qs : List String) (acc r : List (String × String)),
      matchSegs ps qs acc = some r →
      (∀ p ∈ ps, ¬(isParamSeg p = true ∧ paramName p = k)) →
      alookup r k = alookup acc k := by
  intro ps
  induction ps with
  | nil =>
    intro qs acc r hm _
    cases qs with
    | nil => simp [matchSegs] at hm; rw [hm]
    | cons q qs => simp [matchSegs] at hm
  | cons p ps ih =>
    intro qs acc r hm hnp
    cases qs with
    | nil => simp [matchSegs] at hm
    | cons q qs =>
      by_cases hp : isParamSeg p = true
      · simp [matchSegs, hp] at hm
        have hname : paramName p ≠ k := by
          intro hk
          exact hnp p (by simp) ⟨hp, hk⟩
        have := ih qs (mapUpd acc (paramName p) q) r hm
          (fun p' hp' => hnp p' (by simp [hp']))
        rw [this, alookup_mapUpd_ne acc (paramName p) k q (Ne.symm hname)]
      · by_cases hq : p = q
        · subst hq
          simp [matchSegs, hp] at hm
          exact ih qs acc r hm (fun p' hp' => hnp p' (by simp [hp']))
        · simp [matchSegs, hp, hq] at hm

theorem matchSegs_binds_last (k : String) :
    ∀ (ps qs : List String) (acc r : List (String × String)) (i : Nat)
      (hi : i < ps.length) (hq : i < qs.length),
      matchSegs ps qs acc = some r →
      isParamSeg ps[i] = true → paramName ps[i] = k →
      (∀ j, (hj : j < ps.length) → i < j →
        ¬(isParamSeg ps[j] = true ∧ paramName ps[j] = k)) →
      alookup r k = some qs[i] := by
  intro ps
  induction ps with
  | nil => intro qs acc r i hi; simp at hi
  | cons p ps ih =>
    intro qs acc r i hi hqlen hm hpar hname hlater
    cases qs with
    | nil => simp [matchSegs] at hm
    | cons q qs =>
      cases i with
      | zero =>
        simp at hpar hname
        simp [matchSegs, hpar] at hm
        have hstable := matchSegs_lookup_stable k ps qs (mapUpd acc (paramName p) q) r hm ?nolater
        case nolater =>
          intro p' hp'
          obtain ⟨j, hj, hje⟩ := List.mem_iff_getElem.mp hp'
          have := hlater (j + 1) (by simpa using hj) (by omega)
          simpa [hje] using this
        rw [hstable, hname, alookup_mapUpd_self]
        simp
      | succ i =>
        have hi' : i < ps.length := by simpa using hi
        have hqlen' : i < qs.length := by simpa using hqlen
        have hlater' : ∀ j, (hj : j < ps.length) → i < j →
            ¬(isParamSeg ps[j] = true ∧ paramName ps[j] = k) := by
          intro j hj hij
          have := hlater (j + 1) (by simpa using hj) (by omega)
          simpa using this
        by_cases hp : isParamSeg p = true
        · simp [matchSegs, hp] at hm
          have := ih qs (mapUpd acc (paramName p) q) r i hi' hqlen' hm
            (by simpa using hpar) (by simpa using hname) hlater'
          simpa using this
        · by_cases hpq : p = q
          · subst hpq
            simp [matchSegs, hp] at hm
            have := ih qs acc r i hi' hqlen' hm
              (by simpa using hpar) (by simpa using hname) hlater'
            simpa using this
          · simp [matchSegs, hp, hpq] at hm

/-! ## Claim C1 — the path matcher -/

/-- Statement of the C1 claim's binding clause, following the claim's words:
on success the matcher returns a mapping binding each parameter segment's
name to the path segment at that parameter segment's own index. -/
def MatcherBindsEveryParamSegment : Prop :=
  ∀ pattern path params, matchRoute pattern path = some params →
    ∀ i, (hi : i < (splitSegs pattern).length) → (hq : i < (splitSegs path).length) →
      isParamSeg (splitSegs pattern)[i] = true →
      alookup params (paramName (splitSegs pattern)[i]) = some (splitSegs path)[i]

/-- C1 counterexample: for pattern `:a/:a` and path `x/y` the code binds the
repeated parameter name `a` to `y` (the later segment overwrites the
earlier), so the first parameter segment is not bound to its corresponding
path segment `x`, refuting the claim's unrestricted binding clause. -/
theorem C1_counterexample : ¬ MatcherBindsEveryParamSegment := by
  intro h
  have h0 := h ":a/:a" "x/y" [("a", "y")] (by decide) 0 (by decide) (by decide) (by decide)
  exact absurd h0 (by decide)

/-- C1 (amended): `matchRoute` splits both strings on `/`; unequal segment
counts never match; with equal counts it succeeds iff every non-parameter
pattern segment equals the corresponding path segment; and on success each
parameter segment whose name has no later occurrence in the pattern is
bound to its corresponding raw path segment (later occurrences of a
repeated name overwrite earlier ones), the binding being unconditional,
empty path segments included. -/
theorem C1_route_matcher (pattern path : String) :
    (¬ (splitSegs pattern).length = (splitSegs path).length →
      matchRoute pattern path = none) ∧
    ((splitSegs pattern).length = (splitSegs path).length →
      ((matchRoute pattern path).isSome ↔
        ∀ pq ∈ (splitSegs pattern).zip (splitSegs path),
          isParamSeg pq.1 = true ∨ pq.1 = pq.2)) ∧
    (∀ params, matchRoute pattern path = some params →
      ∀ i, (hi : i < (splitSegs pattern).length) →
        (hq : i < (splitSegs path).length) →
        isParamSeg (splitSegs pattern)[i] = true →
        (∀ j, (hj : j < (splitSegs pattern).length) → i < j →
          ¬(isParamSeg (splitSegs pattern)[j] = true ∧
            paramName (splitSegs pattern)[j] = paramName (splitSegs pattern)[i])) →
        alookup params (paramName (splitSegs pattern)[i]) = some (splitSegs path)[i]) := by
  refine ⟨?_, ?_, ?_⟩
  · intro hne
    simp [matchRoute, hne]
  · intro hlen
    simpa [matchRoute, hlen] using
      matchSegs_isSome_iff (splitSegs pattern) (splitSegs path) [] hlen
  · intro params hm i hi hq hpar hlater
    have hlen : (splitSegs pattern).length = (splitSegs path).length := by
      by_contra hne
      simp [matchRoute, hne] at hm
    have hm' : matchSegs (splitSegs pattern) (splitSegs path) [] = some params := by
      simpa [matchRoute, hlen] using hm
    exact matchSegs_binds_last (paramName (splitSegs pattern)[i])
      (splitSegs pattern) (splitSegs path) [] params i hi hq hm' hpar rfl hlater

/-- C1 witness: a non-matching arity pair and a concrete successful match
with its parameter binding, obtained from `C1_route_matcher`. -/
theorem C1_route_matcher_witness :
    matchRoute "x/users" "x/users/42" = none ∧
    alookup [("id", "42")] "id" = some "42" := by
  refine ⟨(C1_route_matcher "x/users" "x/users/42").1 (by decide), ?_⟩
  exact (C1_route_matcher "/users/:id" "/users/42").2.2 [("id", "42")] (by decide) 2
    (by decide) (by decide) (by decide)
    (by
      intro j hj hlt
      have h3 : (splitSegs "/users/:id").length = 3 := by decide
      rw [h3] at hj
      exact absurd hj (by omega))

/-! ## Request context, response writer and error values -/

/-- State of the `http.ResponseWriter`: Go makes the header map effective at
the first `WriteHeader` call and ignores later status writes, so header
mutations after the status line are dropped from the wire model. The body
is the list of encoded JSON documents written so far. -/
structure RespWriter where
  contentType : Option String
  status : Option Nat
  body : List Json

def RespWriter.setContentType (w : RespWriter) (v : String) : RespWriter :=
  if w.status.isSome then w else { w with contentType := some v }

def RespWriter.writeHeader (w : RespWriter) (code : Nat) : RespWriter :=
  if w.status.isSome then w else { w with status := some code }

def RespWriter.writeBody (w : RespWriter) (j : Json) : RespWriter :=
  { w with body := w.body ++ [j] }

/-- `faults.Error`: a structured fault exposing a machine code and a
locale-resolved message. -/
structure FaultE where
  code : Json
  localizedMsg : String → String
  raw : String

/-- `faults.Errors`: a fault collection exposing a locale-resolved aggregate
value. -/
structure FaultsE where
  localizedVal : String → Json
  raw : String

/-- A Go `error` value as the context helpers see it: either it exposes the
`faults.Errors` capability, or the `faults.Error` capability, or it is a
plain error whose only observable is its `Error()` text. -/
inductive GoErr where
  | plain (msg : String)
  | fault (f : FaultE)
  | faultList (fs : FaultsE)

/-- `err.Error()`. -/
def GoErr.errMsg : GoErr → String
  | .plain m => m
  | .fault f => f.raw
  | .faultList fs => fs.raw

/-- A registered session value: its discriminator (`Type()`), whether the
Go value is a pointer, and the concrete struct type it points at (the
representation after `reflect` pointer unwrapping). -/
structure SessionVal where
  discr : Nat
  isPtr : Bool
  baseType : Nat
deriving DecidableEq

/-- Observable events of a request: middleware layers entering and leaving,
and terminal-handler invocations. They model the log/side-effect output
that handlers and middleware may produce. -/
inductive Ev where
  | enter (n : Nat)
  | leave (n : Nat)
  | call (n : Nat)
deriving DecidableEq

/-- The per-request `Context`: response writer, route parameters, locale,
attached session and the recorded HTTP status (zero until an outcome
operation runs). `trace` records the observable events of the request
(instrumentation standing for the log output of handlers/middleware). -/
structure Context where
  writer : RespWriter
  params : List (String × String)
  locale : String
  session : Option SessionVal
  httpStatus : Nat
  trace : List Ev

/-- `Context.JSON`: set `Content-Type: application/json`, write the status
line, and encode the document onto the body. -/
def Context.JSON (c : Context) (code : Nat) (data : Json) : Context :=
  { c with writer :=
      ((c.writer.setContentType "application/json").writeHeader code).writeBody data }

/-- `HandlerFunc`: mutates the context and reports an optional error. -/
def Handler : Type := Context → Context × Option GoErr

/-- `MiddlewareFunc`. -/
def MW : Type := Handler → Handler

/-! ## Outcome-reporting operations of the Context -/

def Context.Success (c : Context) (data : Json) : Context × Option GoErr :=
  let c := { c with httpStatus := 200 }
  (c.JSON 200 (.obj [("code", .num 200), ("data", data)]), none)

def Context.Unauthorized (c : Context) (err : GoErr) : Context × GoErr :=
  let c := { c with httpStatus := 401 }
  match err with
  | .faultList fs =>
    (c.JSON 401 (.obj [("code", .num 401), ("data", fs.localizedVal c.locale)]), err)
  | .fault f =>
    (c.JSON 401 (.obj [("code", f.code),
      ("data", .obj [("description", .str (f.localizedMsg c.locale))])]), err)
  | .plain m =>
    (c.JSON 401 (.obj [("code", .num 401),
      ("data", .obj [("description", .str m)])]), err)

def Context.BadInput (c : Context) (err : GoErr) : Context × GoErr :=
  let c := { c with httpStatus := 400 }
  match err with
  | .faultList fs =>
    (c.JSON 400 (.obj [("code", .num 400), ("data", fs.localizedVal c.locale)]), err)
  | .fault f =>
    (c.JSON 400 (.obj [("code", f.code),
      ("data", .obj [("description", .str (f.localizedMsg c.locale))])]), err)
  | .plain m =>
    (c.JSON 400 (.obj [("code", .num 400),
      ("data", .obj [("description", .str m)])]), err)

def Context.NotFound (c : Context) (err : GoErr) : Context × GoErr :=
  let c := { c with httpStatus := 404 }
  match err with
  | .faultList fs =>
    (c.JSON 404 (.obj [("code", .num 404), ("data", fs.localizedVal c.locale)]), err)
  | .fault f =>
    (c.JSON 404 (.obj [("code", f.code),
      ("data", .obj [("description", .str (f.localizedMsg c.locale))])]), err)
  | .plain m =>
    (c.JSON 404 (.obj [("code", .num 404),
      ("data", .obj [("description", .str m)])]), err)

def Context.Forbidden (c : Context) (err : GoErr) : Context × GoErr :=
  let c := { c with httpStatus := 403 }
  match err with
  | .faultList fs =>
    (c.JSON 403 (.obj [("code", .num 403), ("data", fs.localizedVal c.locale)]), err)
  | .fault f =>
    (c.JSON 403 (.obj [("code", f.code),
      ("data", .obj [("description", .str (f.localizedMsg c.locale))])]), err)
  | .plain m =>
    (c.JSON 403 (.obj [("code", .num 403),
      ("data", .obj [("description", .str m)])]), err)

def Context.TooManyRequest (c : Context) (err : GoErr) : Context × GoErr :=
  let c := { c with httpStatus := 429 }
  match err with
  | .faultList fs =>
    (c.JSON 429 (.obj [("code", .num 429), ("data", fs.localizedVal c.locale)]), err)
  | .fault f =>
    (c.JSON 429 (.obj [("code", f.code),
      ("data", .obj [("description", .str (f.localizedMsg c.locale))])]), err)
  | .plain m =>
    (c.JSON 429 (.obj [("code", .num 429),
      ("data", .obj [("description", .str m)])]), err)

def Context.Conflict (c : Context) (err : GoErr) : Context × GoErr :=
  let c := { c with httpStatus := 409 }
  match err with
  | .faultList fs =>
    (c.JSON 409 (.obj [("code", .num 409), ("data", fs.localizedVal c.locale)]), err)
  | .fault f =>
    (c.JSON 409 (.obj [("code", f.code),
      ("data", .obj [("description", .str (f.localizedMsg c.locale))])]), err)
  | .plain m =>
    (c.JSON 409 (.obj [("code", .num 409),
      ("data", .obj [("description", .str m)])]), err)

def Context.NotAllowed (c : Context) (err : GoErr) : Context × GoErr :=
  let c := { c with httpStatus := 405 }
  match err with
  | .faultList fs =>
    (c.JSON 405 (.obj [("code", .num 405), ("data", fs.localizedVal c.locale)]), err)
  | .fault f =>
    (c.JSON 405 (.obj [("code", f.code),
      ("data", .obj [("description", .str (f.localizedMsg c.locale))])]), err)
  | .plain m =>
    (c.JSON 405 (.obj [("code", .num 405),
      ("error", .obj [("description", .str m)])]), err)

def Context.BadGateway (c : Context) (err : GoErr) : Context × GoErr :=
  let c := { c with httpStatus := 502 }
  match err with
  | .faultList fs =>
    (c.JSON 502 (.obj [("code", .num 502), ("data", fs.localizedVal c.locale)]), err)
  | .fault f =>
    (c.JSON 502 (.obj [("code", f.code),
      ("data", .obj [("description", .str (f.localizedMsg c.locale))])]), err)
  | .plain m =>
    (c.JSON c.httpStatus (.obj [("code", .num 502),
      ("error", .obj [("description", .str m)])]), err)

def Context.Unavailable (c : Context) (err : GoErr) : Context × GoErr :=
  let c := { c with httpStatus := 503 }
  match err with
  | .faultList fs =>
    (c.JSON 503 (.obj [("code", .num 503), ("data", fs.localizedVal c.locale)]), err)
  | .fault f =>
    (c.JSON 503 (.obj [("code", f.code),
      ("data", .obj [("description", .str (f.localizedMsg c.locale))])]), err)
  | .plain m =>
    (c.JSON c.httpStatus (.obj [("code", .num 503),
      ("error", .obj [("description", .str m)])]), err)

def Context.ServerError (c : Context) (err : GoErr) : Context × GoErr :=
  let c := { c with httpStatus := 500 }
  match err with
  | .faultList fs =>
    (c.JSON 500 (.obj [("code", .num 500), ("data", fs.localizedVal c.locale)]), err)
  | .fault f =>
    (c.JSON 500 (.obj [("code", f.code),
      ("data", .obj [("description", .str (f.localizedMsg c.locale))])]), err)
  | .plain m =>
    (c.JSON c.httpStatus (.obj [("code", .num 500),
      ("error", .obj [("description", .str m)])]), err)

/-- A fresh response writer as supplied by the transport for each request. -/
def freshWriter : RespWriter := { contentType := none, status := none, body := [] }

/-- A fresh per-request context (zero-valued fields, as built by `ServeHTTP`). -/
def freshContext : Context :=
  { writer := freshWriter, params := [], locale := "", session := none,
    httpStatus := 0, trace := [] }

/-! ## Claim C6 — the bad-input outcome on a plain error -/

/-- C6: on any context whose response is not yet started, calling `BadInput`
with a plain error records HTTP status 400, writes a JSON response whose
body is the envelope with code 400 and data holding the error's raw
text as its description, and returns the error unchanged. -/
theorem C6_bad_input_plain (c : Context) (msg : String)
    (hfresh : c.writer.status = none) :
    (c.BadInput (.plain msg)).1.httpStatus = 400 ∧
    (c.BadInput (.plain msg)).1.writer.status = some 400 ∧
    (c.BadInput (.plain msg)).1.writer.contentType = some "application/json" ∧
    (c.BadInput (.plain msg)).1.writer.body = c.writer.body ++
      [Json.obj [("code", .num 400), ("data", .obj [("description", .str msg)])]] ∧
    (c.BadInput (.plain msg)).2 = .plain msg := by
  simp [Context.BadInput, Context.JSON, RespWriter.setContentType,
    RespWriter.writeHeader, RespWriter.writeBody, hfresh]

/-- C6 witness: the end-to-end instance with the plain error
"missing field" on a fresh context. -/
theorem C6_bad_input_plain_witness :
    (freshContext.BadInput (.plain "missing field")).1.httpStatus = 400 ∧
    (freshContext.BadInput (.plain "missing field")).1.writer.status = some 400 ∧
    (freshContext.BadInput (.plain "missing field")).1.writer.contentType =
      some "application/json" ∧
    (freshContext.BadInput (.plain "missing field")).1.writer.body =
      [Json.obj [("code", .num 400),
        ("data", .obj [("description", .str "missing field")])]] ∧
    (freshContext.BadInput (.plain "missing field")).2 = .plain "missing field" := by
  have h := C6_bad_input_plain freshContext "missing field" rfl
  refine ⟨h.1, h.2.1, h.2.2.1, ?_, h.2.2.2.2⟩
  have hb := h.2.2.2.1
  simpa [freshContext, freshWriter] using hb

/-! ## Claim C7 — envelope payload-key asymmetry for plain errors -/

/-- C7: for plain errors on a context whose response is not yet started, the
success and client-fault operations emit an envelope whose payload key is
`data`, while the server-fault subset (method-not-allowed, bad-gateway,
unavailable, server-error) uses the key `error`; every emitted response
carries `Content-Type: application/json`. -/
theorem C7_envelope_key_asymmetry (c : Context) (msg : String) (d : Json)
    (hfresh : c.writer.status = none) :
    ((c.Success d).1.writer.body = c.writer.body ++
        [Json.obj [("code", .num 200), ("data", d)]] ∧
      (c.Success d).1.writer.contentType = some "application/json") ∧
    ((c.Unauthorized (.plain msg)).1.writer.body = c.writer.body ++
        [Json.obj [("code", .num 401), ("data", .obj [("description", .str msg)])]] ∧
      (c.Unauthorized (.plain msg)).1.writer.contentType = some "application/json") ∧
    ((c.BadInput (.plain msg)).1.writer.body = c.writer.body ++
        [Json.obj [("code", .num 400), ("data", .obj [("description", .str msg)])]] ∧
      (c.BadInput (.plain msg)).1.writer.contentType = some "application/json") ∧
    ((c.NotFound (.plain msg)).1.writer.body = c.writer.body ++
        [Json.obj [("code", .num 404), ("data", .obj [("description", .str msg)])]] ∧
      (c.NotFound (.plain msg)).1.writer.contentType = some "application/json") ∧
    ((c.Forbidden (.plain msg)).1.writer.body = c.writer.body ++
        [Json.obj [("code", .num 403), ("data", .obj [("description", .str msg)])]] ∧
      (c.Forbidden (.plain msg)).1.writer.contentType = some "application/json") ∧
    ((c.TooManyRequest (.plain msg)).1.writer.body = c.writer.body ++
        [Json.obj [("code", .num 429), ("data", .obj [("description", .str msg)])]] ∧
      (c.TooManyRequest (.plain msg)).1.writer.contentType = some "application/json") ∧
    ((c.Conflict (.plain msg)).1.writer.body = c.writer.body ++
        [Json.obj [("code", .num 409), ("data", .obj [("description", .str msg)])]] ∧
      (c.Conflict (.plain msg)).1.writer.contentType = some "application/json") ∧
    ((c.NotAllowed (.plain msg)).1.writer.body = c.writer.body ++
        [Json.obj [("code", .num 405), ("error", .obj [("description", .str msg)])]] ∧
      (c.NotAllowed (.plain msg)).1.writer.contentType = some "application/json") ∧
    ((c.BadGateway (.plain msg)).1.writer.body = c.writer.body ++
        [Json.obj [("code", .num 502), ("error", .obj [("description", .str msg)])]] ∧
      (c.BadGateway (.plain msg)).1.writer.contentType = some "application/json") ∧
    ((c.Unavailable (.plain msg)).1.writer.body = c.writer.body ++
        [Json.obj [("code", .num 503), ("error", .obj [("description", .str msg)])]] ∧
      (c.Unavailable (.plain msg)).1.writer.contentType = some "application/json") ∧
    ((c.ServerError (.plain msg)).1.writer.body = c.writer.body ++
        [Json.obj [("code", .num 500), ("error", .obj [("description", .str msg)])]] ∧
      (c.ServerError (.plain msg)).1.writer.contentType = some "application/json") := by
  simp [Context.Success, Context.Unauthorized, Context.BadInput, Context.NotFound,
    Context.Forbidden, Context.TooManyRequest, Context.Conflict, Context.NotAllowed,
    Context.BadGateway, Context.Unavailable, Context.ServerError, Context.JSON,
    RespWriter.setContentType, RespWriter.writeHeader, RespWriter.writeBody, hfresh]

/-- C7 witness: the asymmetry on a fresh context with a concrete plain
error, instantiating `C7_envelope_key_asymmetry`. -/
theorem C7_envelope_key_asymmetry_witness :
    (freshContext.BadInput (.plain "x")).1.writer.body =
      [Json.obj [("code", .num 400), ("data", .obj [("description", .str "x")])]] ∧
    (freshContext.ServerError (.plain "x")).1.writer.body =
      [Json.obj [("code", .num 500), ("error", .obj [("description", .str "x")])]] ∧
    (freshContext.ServerError (.plain "x")).1.writer.contentType =
      some "application/json" := by
  have h := C7_envelope_key_asymmetry freshContext "x" (.obj []) rfl
  refine ⟨?_, ?_, h.2.2.2.2.2.2.2.2.2.2.2⟩
  · have hb := h.2.2.1.1
    simpa [freshContext, freshWriter] using hb
  · have hb := h.2.2.2.2.2.2.2.2.2.2.1
    simpa [freshContext, freshWriter] using hb

/-! ## Session-type registry (`RegisterSessionType`, `FetchSession`) -/

/-- Content of the `validSession` map: discriminator (`SessionType`) to the
concrete representation type (a `reflect.Type` with pointers stripped,
abstracted as a type identifier). -/
def SessionRegistry : Type := List (Nat × Nat)

/-- The `faults` package error values used by the session machinery. -/
inductive FaultErr where
  | cannotBeNull
  | conflict
  | unauthorized
  | typeMismatch
deriving DecidableEq

/-- Result of `RegisterSessionType`: normal return with the updated registry,
or a `panic` with the fault it was called with. -/
inductive RegResult where
  | ok (reg : SessionRegistry)
  | panicked (e : FaultErr)

/-- `RegisterSessionType(session)`: panic on a nil session; strip one pointer
level from the session's dynamic type; panic if the discriminator is bound
to a different representation; otherwise (re-)store the binding. -/
def RegisterSessionType (reg : SessionRegistry) (session : Option SessionVal) :
    RegResult :=
  match session with
  | none => .panicked .cannotBeNull
  | some s =>
    let modelType := s.baseType
    match alookup reg s.discr with
    | some existing =>
      if existing ≠ modelType then .panicked .conflict
      else .ok (mapUpd reg s.discr modelType)
    | none => .ok (mapUpd reg s.discr modelType)

/-! ## Claim C4 — RegisterSessionType -/

/-- C4: registering a nil session panics; registering a different
representation under a bound discriminator panics; re-registering the same
representation is a silent no-op leaving the registry unchanged; and every
successful registration preserves all existing bindings, so a
discriminator's representation never changes once bound. -/
theorem C4_register_session_type (reg : SessionRegistry) (s : SessionVal) :
    (RegisterSessionType reg none = .panicked .cannotBeNull) ∧
    (∀ t, alookup reg s.discr = some t → t ≠ s.baseType →
      RegisterSessionType reg (some s) = .panicked .conflict) ∧
    (alookup reg s.discr = some s.baseType →
      RegisterSessionType reg (some s) = .ok reg) ∧
    (∀ reg' d t, RegisterSessionType reg (some s) = .ok reg' →
      alookup reg d = some t → alookup reg' d = some t) := by
  refine ⟨rfl, ?_, ?_, ?_⟩
  · intro t h1 h2
    simp [RegisterSessionType, h1, h2]
  · intro h
    simp [RegisterSessionType, h, mapUpd_self reg s.discr s.baseType h]
  · intro reg' d t hok hd
    cases halo : alookup reg s.discr with
    | some existing =>
      by_cases hx : existing = s.baseType
      · subst hx
        simp [RegisterSessionType, halo] at hok
        by_cases hds : d = s.discr
        · rw [hds] at hd ⊢
          have ht : s.baseType = t := by
            rw [halo] at hd
            exact Option.some.inj hd
          rw [← hok, ← ht]
          exact alookup_mapUpd_self reg s.discr s.baseType
        · rw [← hok, alookup_mapUpd_ne reg s.discr d s.baseType hds]
          exact hd
      · simp [RegisterSessionType, halo, hx] at hok
    | none =>
      simp [RegisterSessionType, halo] at hok
      by_cases hds : d = s.discr
      · rw [hds, halo] at hd
        exact absurd hd (by simp)
      · rw [← hok, alookup_mapUpd_ne reg s.discr d s.baseType hds]
        exact hd

/-- C4 witness: a registry binding discriminator 0 to representation 7;
nil registration panics, a conflicting representation 8 panics, and
re-registering 7 is a no-op. -/
theorem C4_register_session_type_witness :
    RegisterSessionType [(0, 7)] none = .panicked .cannotBeNull ∧
    RegisterSessionType [(0, 7)] (some ⟨0, true, 8⟩) = .panicked .conflict ∧
    RegisterSessionType [(0, 7)] (some ⟨0, true, 7⟩) = .ok [(0, 7)] := by
  refine ⟨(C4_register_session_type [(0, 7)] ⟨0, true, 8⟩).1,
    (C4_register_session_type [(0, 7)] ⟨0, true, 8⟩).2.1 7 (by decide) (by decide),
    (C4_register_session_type [(0, 7)] ⟨0, true, 7⟩).2.2.1 (by decide)⟩

/-! ## FetchSession -/

/-- Go types as `reflect` sees them here: a named (struct) type, a pointer
to one, or an interface type. -/
inductive GoType where
  | named (t : Nat)
  | ptrTo (t : Nat)
  | iface (n : Nat)
deriving DecidableEq

/-- `reflect.TypeOf` of the stored session value. -/
def SessionVal.srcType (s : SessionVal) : GoType :=
  if s.isPtr then .ptrTo s.baseType else .named s.baseType

/-- A (typed) pointer destination: whether the pointer itself is nil, the
type of the pointee `*dst`, and its current content. -/
structure DstPtr where
  isNilPtr : Bool
  elemType : GoType
  content : Option SessionVal
deriving DecidableEq

/-- The `dst any` argument of `FetchSession`: a nil interface, a non-pointer
value, or a pointer. -/
inductive DstArg where
  | nilIface
  | nonPtr (t : GoType)
  | ptr (d : DstPtr)
deriving DecidableEq

/-- `Context.FetchSession(dst)`, parameterised by the `reflect`
`AssignableTo` oracle `asg`. Returns the Go error (`none` on success) and
the final state of the destination (updated only by the final
`dstElem.Set(srcVal)`). The checks run in source order: nil session, nil
interface `dst`, registry lookup, pointer kind and nil-pointer check,
source-type against registered type (pointer and non-pointer cases),
assignability, then the assignment. -/
def FetchSession (asg : GoType → GoType → Bool) (reg : SessionRegistry)
    (session : Option SessionVal) (dst : DstArg) : Option FaultErr × DstArg :=
  match session with
  | none => (some .unauthorized, dst)
  | some s =>
    match dst with
    | .nilIface => (some .cannotBeNull, .nilIface)
    | .nonPtr t =>
      match alookup reg s.discr with
      | none => (some .unauthorized, .nonPtr t)
      | some _ => (some .typeMismatch, .nonPtr t)
    | .ptr d =>
      match alookup reg s.discr with
      | none => (some .unauthorized, .ptr d)
      | some expected =>
        if d.isNilPtr then (some .typeMismatch, .ptr d)
        else if s.isPtr ∧ s.baseType ≠ expected then (some .typeMismatch, .ptr d)
        else if ¬s.isPtr ∧ s.baseType ≠ expected then (some .typeMismatch, .ptr d)
        else if ¬ asg s.srcType d.elemType then (some .typeMismatch, .ptr d)
        else (none, .ptr { d with content := some s })

/-! ## Claim C9 — FetchSession success conditions and error atomicity -/

/-- C9 counterexample: with a non-nil session and a nil interface
destination the code returns the cannot-be-null fault, not the
type-mismatch (nor unauthorized) fault the claim's error taxonomy
predicts. -/
theorem C9_counterexample :
    (FetchSession (fun _ _ => true) [] (some ⟨0, true, 7⟩) .nilIface).1 =
      some .cannotBeNull ∧
    some FaultErr.cannotBeNull ≠ some FaultErr.typeMismatch ∧
    some FaultErr.cannotBeNull ≠ some FaultErr.unauthorized := by
  refine ⟨rfl, by decide, by decide⟩


/-! ### Branch equations for FetchSession -/

theorem fetchSession_nonPtr_none (asg : GoType → GoType → Bool)
    (reg : SessionRegistry) (s : SessionVal) (t : GoType)
    (halo : alookup reg s.discr = none) :
    FetchSession asg reg (some s) (.nonPtr t) = (some .unauthorized, .nonPtr t) := by
  simp [FetchSession, halo]

theorem fetchSession_nonPtr_some (asg : GoType → GoType → Bool)
    (reg : SessionRegistry) (s : SessionVal) (t : GoType) (expected : Nat)
    (halo : alookup reg s.discr = some expected) :
    FetchSession asg reg (some s) (.nonPtr t) = (some .typeMismatch, .nonPtr t) := by
  simp [FetchSession, halo]

theorem fetchSession_ptr_none (asg : GoType → GoType → Bool)
    (reg : SessionRegistry) (s : SessionVal) (d : DstPtr)
    (halo : alookup reg s.discr = none) :
    FetchSession asg reg (some s) (.ptr d) = (some .unauthorized, .ptr d) := by
  simp [FetchSession, halo]

theorem fetchSession_ptr_nil (asg : GoType → GoType → Bool)
    (reg : SessionRegistry) (s : SessionVal) (d : DstPtr) (expected : Nat)
    (halo : alookup reg s.discr = some expected) (hnil : d.isNilPtr = true) :
    FetchSession asg reg (some s) (.ptr d) = (some .typeMismatch, .ptr d) := by
  simp [FetchSession, halo, hnil]

theorem fetchSession_ptr_badtype (asg : GoType → GoType → Bool)
    (reg : SessionRegistry) (s : SessionVal) (d : DstPtr) (expected : Nat)
    (halo : alookup reg s.discr = some expected) (hnil : d.isNilPtr = false)
    (hty : s.baseType ≠ expected) :
    FetchSession asg reg (some s) (.ptr d) = (some .typeMismatch, .ptr d) := by
  cases hsp : s.isPtr <;> simp [FetchSession, halo, hnil, hty, hsp]

theorem fetchSession_ptr_noassign (asg : GoType → GoType → Bool)
    (reg : SessionRegistry) (s : SessionVal) (d : DstPtr) (expected : Nat)
    (halo : alookup reg s.discr = some expected) (hnil : d.isNilPtr = false)
    (hty : s.baseType = expected) (hasg : asg s.srcType d.elemType = false) :
    FetchSession asg reg (some s) (.ptr d) = (some .typeMismatch, .ptr d) := by
  cases hsp : s.isPtr <;> simp [FetchSession, halo, hnil, hty, hsp, hasg]

theorem fetchSession_ptr_ok (asg : GoType → GoType → Bool)
    (reg : SessionRegistry) (s : SessionVal) (d : DstPtr) (expected : Nat)
    (halo : alookup reg s.discr = some expected) (hnil : d.isNilPtr = false)
    (hty : s.baseType = expected) (hasg : asg s.srcType d.elemType = true) :
    FetchSession asg reg (some s) (.ptr d) =
      (none, .ptr { d with content := some s }) := by
  cases hsp : s.isPtr <;> simp [FetchSession, halo, hnil, hty, hsp, hasg]

/-- C9 (amended): `FetchSession` succeeds, assigning the session into the
destination, exactly when the session is attached, the destination is a
non-nil pointer, the session's discriminator is registered to the
session's unwrapped representation, and the session value is assignable to
the pointee type; on every error the destination is unchanged; the error
is unauthorized for a missing session or unregistered discriminator,
cannot-be-null for a nil interface destination, and type-mismatch in all
remaining failure cases. -/
theorem C9_fetch_session (asg : GoType → GoType → Bool) (reg : SessionRegistry)
    (session : Option SessionVal) (dst : DstArg) :
    ((FetchSession asg reg session dst).1 = none ↔
      ∃ s d, session = some s ∧ dst = .ptr d ∧ d.isNilPtr = false ∧
        alookup reg s.discr = some s.baseType ∧ asg s.srcType d.elemType = true) ∧
    (∀ s d, session = some s → dst = .ptr d →
      (FetchSession asg reg session dst).1 = none →
      (FetchSession asg reg session dst).2 = .ptr { d with content := some s }) ∧
    ((FetchSession asg reg session dst).1 ≠ none →
      (FetchSession asg reg session dst).2 = dst) ∧
    (session = none → (FetchSession asg reg session dst).1 = some .unauthorized) ∧
    (∀ s, session = some s → dst = .nilIface →
      (FetchSession asg reg session dst).1 = some .cannotBeNull) ∧
    (∀ s, session = some s → dst ≠ .nilIface → alookup reg s.discr = none →
      (FetchSession asg reg session dst).1 = some .unauthorized) ∧
    (∀ e, (FetchSession asg reg session dst).1 = some e →
      e = .unauthorized ∨ e = .cannotBeNull ∨ e = .typeMismatch) := by
  have key : FetchSession asg reg session dst = (some .unauthorized, dst) ∨
      FetchSession asg reg session dst = (some .cannotBeNull, dst) ∨
      FetchSession asg reg session dst = (some .typeMismatch, dst) ∨
      (∃ s d, session = some s ∧ dst = .ptr d ∧ d.isNilPtr = false ∧
        alookup reg s.discr = some s.baseType ∧ asg s.srcType d.elemType = true ∧
        FetchSession asg reg session dst = (none, .ptr { d with content := some s })) := by
    cases session with
    | none => exact Or.inl rfl
    | some s =>
      cases dst with
      | nilIface => exact Or.inr (Or.inl rfl)
      | nonPtr t =>
        cases halo : alookup reg s.discr with
        | none => exact Or.inl (fetchSession_nonPtr_none asg reg s t halo)
        | some expected =>
          exact Or.inr (Or.inr (Or.inl (fetchSession_nonPtr_some asg reg s t expected halo)))
      | ptr d =>
        cases halo : alookup reg s.discr with
        | none => exact Or.inl (fetchSession_ptr_none asg reg s d halo)
        | some expected =>
          cases hnil : d.isNilPtr with
          | true =>
            exact Or.inr (Or.inr (Or.inl (fetchSession_ptr_nil asg reg s d expected halo hnil)))
          | false =>
            by_cases hty : s.baseType = expected
            · cases hasg : asg s.srcType d.elemType with
              | false =>
                exact Or.inr (Or.inr (Or.inl
                  (fetchSession_ptr_noassign asg reg s d expected halo hnil hty hasg)))
              | true =>
                refine Or.inr (Or.inr (Or.inr ⟨s, d, rfl, rfl, hnil, ?_, hasg, ?_⟩))
                · rw [halo, hty]
                · exact fetchSession_ptr_ok asg reg s d expected halo hnil hty hasg
            · exact Or.inr (Or.inr (Or.inl
                (fetchSession_ptr_badtype asg reg s d expected halo hnil hty)))
  refine ⟨?_, ?_, ?_, ?_, ?_, ?_, ?_⟩
  · constructor
    · intro hnone
      rcases key with h | h | h | h
      · rw [h] at hnone; exact absurd hnone (by simp)
      · rw [h] at hnone; exact absurd hnone (by simp)
      · rw [h] at hnone; exact absurd hnone (by simp)
      · obtain ⟨s, d, h1, h2, h3, h4, h5, _⟩ := h
        exact ⟨s, d, h1, h2, h3, h4, h5⟩
    · intro hex
      obtain ⟨s, d, h1, h2, h3, h4, h5⟩ := hex
      subst h1; subst h2
      rw [fetchSession_ptr_ok asg reg s d s.baseType h4 h3 rfl h5]
  · intro s d hs hd hnone
    rcases key with h | h | h | h
    · rw [h] at hnone; exact absurd hnone (by simp)
    · rw [h] at hnone; exact absurd hnone (by simp)
    · rw [h] at hnone; exact absurd hnone (by simp)
    · obtain ⟨s', d', h1, h2, _, _, _, h6⟩ := h
      rw [hs] at h1
      rw [hd] at h2
      have hss : s' = s := (Option.some.inj h1).symm
      have hdd : d' = d := (DstArg.ptr.inj h2).symm
      rw [h6, hss, hdd]
  · intro hne
    rcases key with h | h | h | h
    · rw [h]
    · rw [h]
    · rw [h]
    · obtain ⟨s, d, _, _, _, _, _, h6⟩ := h
      rw [h6] at hne
      simp at hne
  · intro hs
    subst hs
    rfl
  · intro s hs hd
    subst hs; subst hd
    rfl
  · intro s hs hne halo
    subst hs
    cases dst with
    | nilIface => exact absurd rfl hne
    | nonPtr t => rw [fetchSession_nonPtr_none asg reg s t halo]
    | ptr d => rw [fetchSession_ptr_none asg reg s d halo]
  · intro e he
    rcases key with h | h | h | h
    · rw [h] at he
      simp at he
      simp [← he]
    · rw [h] at he
      simp at he
      simp [← he]
    · rw [h] at he
      simp at he
      simp [← he]
    · obtain ⟨s, d, _, _, _, _, _, h6⟩ := h
      rw [h6] at he
      exact absurd he (by simp)

/-- C9 witness: a successful fetch assigning the session into the
destination, via `C9_fetch_session` at a concrete registry, session and
destination. -/
theorem C9_fetch_session_witness :
    (FetchSession (fun a b => a = b) [(0, 7)] (some ⟨0, true, 7⟩)
      (.ptr ⟨false, .ptrTo 7, none⟩)).2 =
      .ptr ⟨false, .ptrTo 7, some ⟨0, true, 7⟩⟩ := by
  have h := (C9_fetch_session (fun a b => a = b) [(0, 7)] (some ⟨0, true, 7⟩)
    (.ptr ⟨false, .ptrTo 7, none⟩)).2.1 ⟨0, true, 7⟩ ⟨false, .ptrTo 7, none⟩ rfl rfl
    (by decide)
  simpa using h

/-! ## Route registry, registration and dispatch -/

/-- A stored route: the terminal handler plus the frozen middleware chain. -/
structure routeEntry where
  handler : Handler
  middleware : List MW

/-- Content of the routes table `map[string]map[string]routeEntry` as its
lookup function: method, then verbatim pattern string. -/
def RoutesMap : Type := String → String → Option routeEntry

/-- A `Router`: accumulated path prefix and group middleware. The backing
routes table is shared by pointer between routers in Go, so it is passed
and returned explicitly here. -/
structure Router where
  pathPrefix : String
  middleware : List MW

/-- `Router.handle`: freeze `[group middleware] ++ [route middleware]` into
the entry and store it under the verbatim (method, path) key, overwriting
any previous entry; the operation is total (no error or panic path). -/
def Router.handle (r : Router) (routes : RoutesMap) (method path : String)
    (h : Handler) (mws : List MW) : RoutesMap :=
  fun m p =>
    if m = method ∧ p = path then
      some { handler := h, middleware := r.middleware ++ mws }
    else routes m p

/-- `Router.GET`: register under the router's prefix plus the given path. -/
def Router.GET (r : Router) (routes : RoutesMap) (path : String) (h : Handler)
    (mws : List MW) : RoutesMap :=
  r.handle routes "GET" (r.pathPrefix ++ path) h mws

/-- `Router.POST`. -/
def Router.POST (r : Router) (routes : RoutesMap) (path : String) (h : Handler)
    (mws : List MW) : RoutesMap :=
  r.handle routes "POST" (r.pathPrefix ++ path) h mws

/-- `Router.Group(prefix, mws...)`: a sub-router with concatenated prefix
and a copy of the accumulated middleware extended by `mws`. -/
def Router.Group (r : Router) (px : String) (mws : List MW) : Router :=
  { pathPrefix := r.pathPrefix ++ px, middleware := r.middleware ++ mws }

/-- `Router.Use`. -/
def Router.Use (r : Router) (mws : List MW) : Router :=
  { r with middleware := r.middleware ++ mws }

/-- The `App` at dispatch time: global middleware, and for each method the
route list in the (unspecified) order a `range` over the Go map yields. -/
structure AppM where
  routes : String → List (String × routeEntry)
  mw : List MW

/-- `App.Use`: append global middleware. -/
def App.Use (app : AppM) (mws : List MW) : AppM :=
  { app with mw := app.mw ++ mws }

/-- The two wrapping loops of `ServeHTTP`: wrap `h` with `mws` in reverse
registration order (index len-1 first), so `mws[0]` ends outermost. -/
def applyChain (mws : List MW) (h : Handler) : Handler :=
  mws.foldr (fun m acc => m acc) h

/-- The `route, e := range routes[method]` loop: first pattern for which the
matcher succeeds wins. -/
def findRoute : List (String × routeEntry) → String →
    Option (List (String × String) × routeEntry)
  | [], _ => none
  | (pat, e) :: rest, pth =>
    match matchRoute pat pth with
    | some ps => some (ps, e)
    | none => findRoute rest pth

/-- One line of the operational log written at the end of `ServeHTTP`
(remote address and elapsed time are environment inputs, omitted). -/
structure LogLine where
  method : String
  status : Nat
  path : String
  message : String

/-- `http.NotFound(w, r)`: a plain-text 404 response. -/
def notFoundResp (w : RespWriter) : RespWriter :=
  ((w.setContentType "text/plain; charset=utf-8").writeHeader 404).writeBody
    (.str "404 page not found")

/-- The context `ServeHTTP` constructs for each request (all other fields
zero-valued, as in Go). -/
def mkCtx (w : RespWriter) : Context :=
  { writer := w, params := [], locale := "", session := none,
    httpStatus := 0, trace := [] }

/-- `App.ServeHTTP`: build a fresh context; scan the method's routes with
the matcher; on no match reply `http.NotFound` and return (no log, no
middleware); otherwise wrap the handler in route then global middleware
(each reverse-iterated, globals outermost), run it once, and log the
recorded status and the returned error's text. -/
def serveHTTP (app : AppM) (method pth : String) (w : RespWriter) :
    Context × Option LogLine :=
  let ctx0 : Context := mkCtx w
  match findRoute (app.routes method) pth with
  | none => ({ ctx0 with writer := notFoundResp w }, none)
  | some (ps, e) =>
    let ctx1 := { ctx0 with params := ps }
    let final := applyChain app.mw (applyChain e.middleware e.handler)
    let res := final ctx1
    let message := match res.2 with
      | none => "success"
      | some er => er.errMsg
    let line : LogLine := ⟨method, res.1.httpStatus, pth, message⟩
    (res.1, some line)

/-! ## Instrumented handlers and middleware -/

/-- A middleware that records entering and leaving its layer and otherwise
delegates to the next handler unchanged. -/
def traceMW (n : Nat) : MW := fun next c =>
  let c1 := { c with trace := c.trace ++ [Ev.enter n] }
  let r := next c1
  ({ r.1 with trace := r.1.trace ++ [Ev.leave n] }, r.2)

/-- A terminal handler that records its invocation and succeeds. -/
def traceHandler (n : Nat) : Handler := fun c =>
  ({ c with trace := c.trace ++ [Ev.call n] }, none)

/-- Whether an event is a terminal-handler invocation. -/
def Ev.isCall : Ev → Bool
  | .call _ => true
  | _ => false

/-- A handler that reports the given status (as an outcome operation would
record it) and succeeds. -/
def handlerStatus (n : Nat) : Handler := fun c =>
  ({ c with httpStatus := n }, none)

/-- A handler that does nothing. -/
def handlerNoop : Handler := fun c => (c, none)

/-- The root router created by `New()`. -/
def router0 : Router := { pathPrefix := "", middleware := [] }

/-- An empty routes table. -/
def routesEmpty : RoutesMap := fun _ _ => none

/-! ## Claim C2 — middleware composition order -/

/-- The app of claim C2: global middleware `[A, B]` registered through
`App.Use`, and one route whose frozen chain is `[C, D]` around a terminal
handler, all instrumented to record their execution. -/
def traceApp (a b c d hid : Nat) : AppM :=
  App.Use ⟨fun _ => [("/x", ⟨traceHandler hid, [traceMW c, traceMW d]⟩)], []⟩
    [traceMW a, traceMW b]

/-- C2: dispatching a matching request through global middleware `[A, B]`
and route middleware `[C, D]` executes
A → B → C → D → handler → D → C → B → A, and the terminal handler runs
exactly once. -/
theorem C2_middleware_order (a b c d hid : Nat) (w : RespWriter) :
    (serveHTTP (traceApp a b c d hid) "GET" "/x" w).1.trace =
      [Ev.enter a, Ev.enter b, Ev.enter c, Ev.enter d, Ev.call hid,
        Ev.leave d, Ev.leave c, Ev.leave b, Ev.leave a] ∧
    ((serveHTTP (traceApp a b c d hid) "GET" "/x" w).1.trace.countP Ev.isCall) = 1 := by
  have hm : matchRoute "/x" "/x" = some [] := by decide
  constructor
  · simp [serveHTTP, traceApp, App.Use, findRoute, hm, applyChain, traceMW,
      traceHandler, mkCtx]
  · simp [serveHTTP, traceApp, App.Use, findRoute, hm, applyChain, traceMW,
      traceHandler, mkCtx, Ev.isCall]

/-! ## Claim C5 — unmatched requests -/

theorem findRoute_eq_none (pth : String) :
    ∀ (rs : List (String × routeEntry)),
      (∀ pe ∈ rs, matchRoute pe.1 pth = none) → findRoute rs pth = none := by
  intro rs
  induction rs with
  | nil => intro _; rfl
  | cons pe rest ih =>
    intro hall
    obtain ⟨pat, e⟩ := pe
    have h1 : matchRoute pat pth = none := hall (pat, e) (by simp)
    simp [findRoute, h1]
    exact ih (fun pe hpe => hall pe (by simp [hpe]))

/-- C5: when no registered pattern for the method matches the path, the
dispatcher replies with the transport's plain not-found response and stops:
the result is the same for every choice of handlers and middleware (so none
of them is invoked), no log line is produced, and the context keeps its
zero status and empty trace (no outcome operation ran). -/
theorem C5_not_found (app : AppM) (method pth : String) (w : RespWriter)
    (hnone : ∀ pe ∈ app.routes method, matchRoute pe.1 pth = none) :
    serveHTTP app method pth w = ({ mkCtx w with writer := notFoundResp w }, none) := by
  have hf : findRoute (app.routes method) pth = none := findRoute_eq_none pth _ hnone
  simp [serveHTTP, hf]

/-- An entry whose handler does nothing. -/
def entryNoop : routeEntry := ⟨handlerNoop, []⟩

/-- An app with a single registered route `GET /a/b`. -/
def appOne : AppM := ⟨fun _ => [("/a/b", entryNoop)], []⟩

/-- C5 witness: a request for an unregistered path against `appOne`. -/
theorem C5_not_found_witness :
    serveHTTP appOne "GET" "/zzz" freshWriter =
      ({ mkCtx freshWriter with writer := notFoundResp freshWriter }, none) := by
  exact C5_not_found appOne "GET" "/zzz" freshWriter (by
    intro pe hpe
    simp [appOne] at hpe
    subst hpe
    decide)

/-! ## Claim C8 — registration through a group -/

/-- C8: registering `GET` through a group concatenates the prefixes into the
stored verbatim pattern and freezes `[inherited middleware ++ group
middleware] ++ [route middleware]`, group middleware ahead of
route-specific middleware; in particular a root group `/api` with
middleware `M` stores `GET /api/users/:id` with chain `[M] ++ rs`. -/
theorem C8_group_registration (routes : RoutesMap) (bp : String) (g0 : List MW)
    (px sub : String) (M : MW) (rs : List MW) (h : Handler) :
    ((Router.Group ⟨bp, g0⟩ px [M]).GET routes sub h rs) "GET" ((bp ++ px) ++ sub) =
      some ⟨h, (g0 ++ [M]) ++ rs⟩ ∧
    ((router0.Group "/api" [M]).GET routes "/users/:id" h rs) "GET" "/api/users/:id" =
      some ⟨h, [M] ++ rs⟩ := by
  constructor
  · simp [Router.Group, Router.GET, Router.handle]
  · simp [Router.Group, Router.GET, Router.handle, router0]

/-! ## Claim C10 — re-registration silently replaces -/

/-- C10: a second registration under the same method and verbatim pattern
replaces the stored entry (handler and frozen chain) — the operation is
total, so no error or panic is possible — and every other (method,
pattern) key is left untouched. -/
theorem C10_reregistration_replaces (routes : RoutesMap) (r1 r2 : Router)
    (method path : String) (h1 h2 : Handler) (mw1 mw2 : List MW) :
    (r2.handle (r1.handle routes method path h1 mw1) method path h2 mw2) method path =
      some ⟨h2, r2.middleware ++ mw2⟩ ∧
    (∀ m p, ¬(m = method ∧ p = path) →
      (r2.handle (r1.handle routes method path h1 mw1) method path h2 mw2) m p =
        (r1.handle routes method path h1 mw1) m p) := by
  constructor
  · simp [Router.handle]
  · intro m p hne
    have hstep : (r2.handle (r1.handle routes method path h1 mw1) method path h2 mw2) m p =
        if m = method ∧ p = path then some ⟨h2, r2.middleware ++ mw2⟩
        else (r1.handle routes method path h1 mw1) m p := rfl
    rw [hstep, if_neg hne]

/-- C10 witness: overwrite `GET /a` and check `GET /b` is untouched. -/
theorem C10_reregistration_replaces_witness :
    (router0.handle (router0.handle routesEmpty "GET" "/a" handlerNoop [])
        "GET" "/a" (handlerStatus 201) []) "GET" "/a" =
      some ⟨handlerStatus 201, []⟩ ∧
    (router0.handle (router0.handle routesEmpty "GET" "/a" handlerNoop [])
        "GET" "/a" (handlerStatus 201) []) "GET" "/b" =
      (router0.handle routesEmpty "GET" "/a" handlerNoop []) "GET" "/b" := by
  constructor
  · have h := (C10_reregistration_replaces routesEmpty router0 router0 "GET" "/a"
      handlerNoop (handlerStatus 201) [] []).1
    simpa [router0] using h
  · exact (C10_reregistration_replaces routesEmpty router0 router0 "GET" "/a"
      handlerNoop (handlerStatus 201) [] []).2 "GET" "/b" (by decide)

/-! ## Claim C3 — route lookup and registry iteration order -/

/-- An entry whose handler records status 201. -/
def entryA : routeEntry := ⟨handlerStatus 201, []⟩

/-- An entry whose handler records status 202. -/
def entryB : routeEntry := ⟨handlerStatus 202, []⟩

/-- One iteration order of a registry holding `/users/:id` and
`/users/active`. -/
def snapAB : List (String × routeEntry) := [("/users/:id", entryA), ("/users/active", entryB)]

/-- The other iteration order of the same registry content. -/
def snapBA : List (String × routeEntry) := [("/users/active", entryB), ("/users/:id", entryA)]

/-- The app seen under the first iteration order. -/
def appAB : AppM := ⟨fun _ => snapAB, []⟩

/-- The app seen under the second iteration order. -/
def appBA : AppM := ⟨fun _ => snapBA, []⟩

/-- C3 counterexample: the two lists are permutations of each other — the
same Go map content, whose `range` order is unspecified — yet dispatching
the identical request `GET /users/active` selects different route entries
(observable as recorded statuses 201 versus 202), so lookup is neither a
function of the registry alone nor of any registration order. -/
theorem C3_counterexample :
    snapAB.Perm snapBA ∧
    (serveHTTP appAB "GET" "/users/active" freshWriter).1.httpStatus = 201 ∧
    (serveHTTP appBA "GET" "/users/active" freshWriter).1.httpStatus = 202 := by
  refine ⟨List.Perm.swap _ _ _, ?_, ?_⟩
  · have hm : matchRoute "/users/:id" "/users/active" = some [("id", "active")] := by
      decide
    simp [serveHTTP, appAB, snapAB, findRoute, hm, applyChain, handlerStatus, mkCtx,
      entryA]
  · have hm : matchRoute "/users/active" "/users/active" = some [] := by decide
    simp [serveHTTP, appBA, snapBA, findRoute, hm, applyChain, handlerStatus, mkCtx,
      entryB]

theorem findRoute_eq_find? (pth : String) :
    ∀ (rs : List (String × routeEntry)),
      findRoute rs pth =
        (rs.find? (fun pe => (matchRoute pe.1 pth).isSome)).map
          (fun pe => ((matchRoute pe.1 pth).getD [], pe.2)) := by
  intro rs
  induction rs with
  | nil => simp [findRoute]
  | cons pe rest ih =>
    obtain ⟨pat, e⟩ := pe
    cases hm : matchRoute pat pth with
    | some ps =>
      rw [findRoute]
      rw [List.find?_cons_of_pos _ (by simp [hm])]
      simp [hm]
    | none =>
      rw [findRoute]
      rw [List.find?_cons_of_neg _ (by simp [hm])]
      simp [hm, ih]

theorem find?_perm_of_countP_le_one {α : Type} (p : α → Bool) :
    ∀ {l1 l2 : List α}, l1.Perm l2 → l1.countP p ≤ 1 → l1.find? p = l2.find? p := by
  intro l1 l2 hperm
  induction hperm with
  | nil => intro _; rfl
  | cons x h ih =>
    intro hc
    cases hx : p x with
    | true => simp [List.find?_cons_of_pos _ hx]
    | false =>
      rw [List.find?_cons_of_neg _ (by simp [hx]),
        List.find?_cons_of_neg _ (by simp [hx])]
      apply ih
      simpa [List.countP_cons, hx] using hc
  | swap x y l =>
    intro hc
    cases hx : p x with
    | true =>
      cases hy : p y with
      | true =>
        exfalso
        simp [List.countP_cons, hx, hy] at hc
      | false =>
        rw [List.find?_cons_of_neg _ (by simp [hy]),
          List.find?_cons_of_pos _ hx, List.find?_cons_of_pos _ hx]
    | false =>
      cases hy : p y with
      | true =>
        rw [List.find?_cons_of_pos _ hy, List.find?_cons_of_neg _ (by simp [hx]),
          List.find?_cons_of_pos _ hy]
      | false =>
        rw [List.find?_cons_of_neg _ (by simp [hy]),
          List.find?_cons_of_neg _ (by simp [hx]),
          List.find?_cons_of_neg _ (by simp [hx]),
          List.find?_cons_of_neg _ (by simp [hy])]
  | trans h12 h23 ih1 ih2 =>
    intro hc
    rw [ih1 hc, ih2 (by rw [← h12.countP_eq p]; exact hc)]

/-- C3 (amended): for a fixed registry iteration order, dispatch is a
function (trivially deterministic) returning the first pattern in that
order for which the matcher succeeds; and whenever at most one registered
pattern structurally matches the path, the outcome of the whole dispatch is
independent of the iteration order, so identical requests always select the
same entry. With several matching patterns the selection depends on the
unspecified Go map iteration order, not on registration order. -/
theorem C3_route_lookup_order (mwg : List MW)
    (f1 f2 : String → List (String × routeEntry)) (method pth : String)
    (w : RespWriter) (hperm : (f1 method).Perm (f2 method))
    (huniq : (f1 method).countP (fun pe => (matchRoute pe.1 pth).isSome) ≤ 1) :
    serveHTTP ⟨f1, mwg⟩ method pth w = serveHTTP ⟨f2, mwg⟩ method pth w := by
  have hf : findRoute (f1 method) pth = findRoute (f2 method) pth := by
    rw [findRoute_eq_find? pth (f1 method), findRoute_eq_find? pth (f2 method),
      find?_perm_of_countP_le_one _ hperm huniq]
  simp [serveHTTP, hf]

/-- C3 witness: a registry where exactly one pattern matches `/users/active`
gives the same dispatch under both iteration orders. -/
theorem C3_route_lookup_order_witness :
    serveHTTP ⟨fun _ => [("/users/:id/x", entryA), ("/users/active", entryB)], []⟩
        "GET" "/users/active" freshWriter =
      serveHTTP ⟨fun _ => [("/users/active", entryB), ("/users/:id/x", entryA)], []⟩
        "GET" "/users/active" freshWriter := by
  exact C3_route_lookup_order []
    (fun _ => [("/users/:id/x", entryA), ("/users/active", entryB)])
    (fun _ => [("/users/active", entryB), ("/users/:id/x", entryA)])
    "GET" "/users/active" freshWriter (List.Perm.swap _ _ _) (by decide)
